import Mathlib

/-!
Verification of the fast-near view-call execution sandbox
(src/worker.js and src/worker-pool.js) against its specification.

The JavaScript sources are shallowly embedded:

* Byte buffers (Node `Buffer` / `Uint8Array`) are `List Nat` of byte values.
* The per-call mutable state (the `registers` closure variable plus the
  `ctx` fields `memory`, `logs`, `result` of worker.js) is the structure `St`.
* Each host ABI import of worker.js is a Lean function returning a pair
  `St × Except JsError τ`: the state after the call together with either the
  value handed back to the guest or the JavaScript exception thrown.  In
  every one of these imports all operations that can throw precede every
  mutation, so an import that throws returns the incoming state unchanged.
* The pool of worker-pool.js is the structure `Pool`; its event handlers
  (`message`, `exit`, `error`), `runContract`, `close` and the timeout
  callback are pure transition functions on `Pool`.
-/

namespace FastNear

/-- worker.js line 7: `MAX_U64 = 18446744073709551615n`. -/
def MAX_U64 : Nat := 18446744073709551615

/-- JavaScript exceptions thrown by the embedded code.  `error` is a plain
`new Error(msg)`; the other constructors record the distinguished error
classes Node raises (`TypeError`, `RangeError`, and the `ERR_UNKNOWN_ENCODING`
`TypeError` thrown by `Buffer.prototype.toString`). -/
inductive JsError where
  | error (msg : String)
  | typeError (msg : String)
  | rangeError (msg : String)
  | unknownEncoding (msg : String)
deriving DecidableEq

/-- The JavaScript values that can reach `Buffer.from` in this code:
either `undefined` (a missing object property) or a string. -/
inductive JsVal where
  | undefined
  | str (s : String)
deriving DecidableEq

/-- UTF-8 encoding of one Unicode code point (the encoding `Buffer.from`
applies to a JavaScript string). -/
def utf8EncodeChar (c : Nat) : List Nat :=
  if c < 128 then [c]
  else if c < 2048 then [192 + c / 64, 128 + c % 64]
  else if c < 65536 then [224 + c / 4096, 128 + c / 64 % 64, 128 + c % 64]
  else [240 + c / 262144, 128 + c / 4096 % 64, 128 + c / 64 % 64, 128 + c % 64]

/-- UTF-8 encoding of a list of characters. -/
def utf8EncodeList : List Char → List Nat
  | [] => []
  | c :: cs => utf8EncodeChar c.toNat ++ utf8EncodeList cs

/-- UTF-8 bytes of a string: the embedding of `Buffer.from(s)` for a string
`s`. -/
def utf8Encode (s : String) : List Nat :=
  utf8EncodeList s.data

/-- The immutable per-call inputs of worker.js `runWASM` lines 155-162:
the `blockHeight`, `contractId` and `methodArgs` fields of the `ctx`
object literal. -/
structure Ctx where
  blockHeight : Nat
  contractId : String
  methodArgs : List Nat
deriving DecidableEq

/-- The mutable per-call state: the `registers` object created in
`imports` (worker.js line 20), the instantiated module's linear memory
`ctx.memory`, the log array `ctx.logs`, and the optional result buffer
`ctx.result`. -/
structure St where
  regs : Nat → Option (List Nat)
  mem : List Nat
  logs : List String
  result : Option (List Nat)

/-- Assignment `registers[register_id] = v`. -/
def setReg (regs : Nat → Option (List Nat)) (register_id : Nat) (v : List Nat) :
    Nat → Option (List Nat) :=
  fun i => if i = register_id then some v else regs i

/-- worker.js lines 35-37.  `registers[register_id]` is a `Buffer` object and
hence truthy whenever the property is present (even when empty), so a written
register reports its exact length and an unwritten one reports `MAX_U64`. -/
def register_len (st : St) (register_id : Nat) : St × Except JsError Nat :=
  (st, .ok (match st.regs register_id with
    | some buf => buf.length
    | none => MAX_U64))

/-- `TypedArray.prototype.set(src, off)` on a `Uint8Array` view of the
whole linear memory: throws `RangeError` when `src.length + off` exceeds the
memory length, otherwise overwrites the bytes at offsets
`off, ..., off + src.length - 1`. -/
def memSet (mem src : List Nat) (off : Nat) : Except JsError (List Nat) :=
  if src.length + off ≤ mem.length then
    .ok (mem.take off ++ src ++ mem.drop (off + src.length))
  else
    .error (.rangeError "offset is out of bounds")

/-- worker.js lines 38-41: `mem.set(registers[register_id] || Buffer.from([]), Number(ptr))`. -/
def read_register (st : St) (register_id ptr : Nat) : St × Except JsError Unit :=
  match memSet st.mem ((st.regs register_id).getD []) ptr with
  | .ok m => ({ st with mem := m }, .ok ())
  | .error e => (st, .error e)

/-- The property access `ctx.contract_id` in worker.js line 44.  The context
object built in `runWASM` (lines 157-162, plus `ctx.memory` and `ctx.result`
assigned later) has fields `blockHeight`, `contractId`, `methodArgs`, `logs`,
`memory`, `result` — there is no `contract_id` property, so the access
evaluates to `undefined`. -/
def Ctx.contract_id (_ : Ctx) : JsVal :=
  JsVal.undefined

/-- `Buffer.from` applied to the values that reach it here: a string is
UTF-8 encoded; `undefined` makes Node throw
`TypeError [ERR_INVALID_ARG_TYPE]`. -/
def bufferFromVal : JsVal → Except JsError (List Nat)
  | .undefined => .error (.typeError "The first argument must be of type string or an instance of Buffer, ArrayBuffer, or Array or an Array-like Object. Received undefined")
  | .str s => .ok (utf8Encode s)

/-- worker.js lines 43-45: `registers[register_id] = Buffer.from(ctx.contract_id)`. -/
def current_account_id (ctx : Ctx) (st : St) (register_id : Nat) :
    St × Except JsError Unit :=
  match bufferFromVal ctx.contract_id with
  | .ok buf => ({ st with regs := setReg st.regs register_id buf }, .ok ())
  | .error e => (st, .error e)

/-- worker.js lines 49-51: `registers[register_id] = Buffer.from(ctx.methodArgs)`
(`methodArgs` arrives as a byte array; `Buffer.from` copies its bytes). -/
def input (ctx : Ctx) (st : St) (register_id : Nat) : St × Except JsError Unit :=
  ({ st with regs := setReg st.regs register_id ctx.methodArgs }, .ok ())

/-- worker.js lines 52-54: `BigInt(ctx.blockHeight)`. -/
def block_index (ctx : Ctx) (st : St) : St × Except JsError Nat :=
  (st, .ok ctx.blockHeight)

/-- `Uint8Array.prototype.slice(a, b)` for non-negative indices: both
indices are clamped to the array length and the elements at the clamped
range are copied (ECMA-262 %TypedArray%.prototype.slice).  It never throws. -/
def jsSlice (l : List Nat) (a b : Nat) : List Nat :=
  (l.take (min b l.length)).drop (min a l.length)

/-- worker.js lines 70-73:
`ctx.result = Buffer.from(mem.slice(Number(value_ptr), Number(value_ptr + value_len)))`
(the pointer arithmetic is exact `BigInt` arithmetic, so no wrap-around). -/
def value_return (st : St) (value_len value_ptr : Nat) : St × Except JsError Unit :=
  ({ st with result := some (jsSlice st.mem value_ptr (value_ptr + value_len)) }, .ok ())

/-- `new Uint8Array(ctx.memory.buffer, Number(ptr), Number(len))`: throws
`RangeError` when the requested view `[ptr, ptr + len)` does not fit in the
buffer, otherwise views exactly those bytes. -/
def uint8ArrayView (mem : List Nat) (ptr len : Nat) : Except JsError (List Nat) :=
  if ptr + len ≤ mem.length then
    .ok ((mem.drop ptr).take len)
  else
    .error (.rangeError "Invalid typed array length")

/-- The encoding names accepted by Node's `Buffer` (any other name makes
`Buffer.prototype.toString` throw `TypeError [ERR_UNKNOWN_ENCODING]`). -/
def nodeBufferEncodings : List String :=
  ["utf8", "utf-8", "hex", "base64", "base64url", "ascii", "binary", "latin1",
   "ucs2", "ucs-2", "utf16le", "utf-16le"]

/-- `Buffer.prototype.toString(enc)`.  The concrete decoders are platform
primitives; they are passed in as a total family `decodeWith` (Node's string
decoders never throw: invalid sequences become replacement characters).  An
encoding name outside `nodeBufferEncodings` throws. -/
def bufferToString (decodeWith : String → List Nat → String) (enc : String)
    (buf : List Nat) : Except JsError String :=
  if enc ∈ nodeBufferEncodings then
    .ok (decodeWith enc buf)
  else
    .error (.unknownEncoding ("Unknown encoding: " ++ enc))

/-- worker.js lines 89-94: view `len` bytes at `ptr`, decode with encoding
name "utf8", append the decoded string to `ctx.logs`. -/
def log_utf8 (decodeWith : String → List Nat → String) (st : St) (len ptr : Nat) :
    St × Except JsError Unit :=
  match uint8ArrayView st.mem ptr len with
  | .error e => (st, .error e)
  | .ok buf =>
    match bufferToString decodeWith "utf8" buf with
    | .error e => (st, .error e)
    | .ok message => ({ st with logs := st.logs ++ [message] }, .ok ())

/-- worker.js lines 95-100: view `len` bytes at `ptr`, decode with encoding
name "utf16" (sic — the string literal passed to `toString` on line 97),
append the decoded string to `ctx.logs`. -/
def log_utf16 (decodeWith : String → List Nat → String) (st : St) (len ptr : Nat) :
    St × Except JsError Unit :=
  match uint8ArrayView st.mem ptr len with
  | .error e => (st, .error e)
  | .ok buf =>
    match bufferToString decodeWith "utf16" buf with
    | .error e => (st, .error e)
    | .ok message => ({ st with logs := st.logs ++ [message] }, .ok ())

/-- worker.js lines 14-17: the handler installed for every
prohibited-for-view import throws a plain Error whose message is the text
"method not available for view calls: " followed by the import name, before
touching anything. -/
def prohibitedInViewCall (name : String) (st : St) : St × Except JsError Unit :=
  (st, .error (.error ("method not available for view calls: " ++ name)))

/-- worker.js lines 9-12: the handler installed for every unimplemented
host function throws a plain Error whose message is the text
"method not implemented: " followed by the import name. -/
def notImplementedCall (name : String) (st : St) : St × Except JsError Unit :=
  (st, .error (.error ("method not implemented: " ++ name)))

/-- The imports bound to the `prohibitedInView` handler in the `env` table
(worker.js lines 46-48, 61-63, 102-118, 120, 146), in source order. -/
def prohibitedImportNames : List String :=
  ["signer_account_id", "signer_account_pk", "predecessor_account_id",
   "attached_deposit", "prepaid_gas", "used_gas",
   "promise_create", "promise_then", "promise_and",
   "promise_batch_create", "promise_batch_then",
   "promise_batch_action_create_account", "promise_batch_action_deploy_contract",
   "promise_batch_action_function_call", "promise_batch_action_transfer",
   "promise_batch_action_stake", "promise_batch_action_add_key_with_full_access",
   "promise_batch_action_add_key_with_function_call", "promise_batch_action_delete_key",
   "promise_batch_action_delete_account", "promise_results_count", "promise_result",
   "promise_return", "storage_write", "storage_remove"]

/-- The imports bound to concrete implementations in the `env` table
(worker.js lines 35-45, 49-54, 70-100, 121-145), in source order. -/
def implementedImportNames : List String :=
  ["register_len", "read_register", "current_account_id", "input", "block_index",
   "value_return", "panic", "panic_utf8", "abort", "log_utf8", "log_utf16",
   "storage_read"]

/-- The imports bound to the `notImplemented` handler in the `env` table
(worker.js lines 55-60, 65-68, 147, 149-150), in source order. -/
def notImplementedImportNames : List String :=
  ["block_timestamp", "epoch_height", "storage_usage", "account_balance",
   "account_locked_balance", "random_seed", "sha256", "keccak256", "keccak512",
   "storage_has_key", "validator_stake", "validator_total_stake"]

/-- Category of an entry of the `env` import table. -/
inductive ImportKind where
  | implementedFn
  | prohibitedFn
  | notImplementedFn
deriving DecidableEq

/-- The classification of the `env` import table of worker.js lines 33-152:
which handler each import name is bound to (`none` for a name that is not in
the table). -/
def importKind (name : String) : Option ImportKind :=
  if name ∈ implementedImportNames then some .implementedFn
  else if name ∈ prohibitedImportNames then some .prohibitedFn
  else if name ∈ notImplementedImportNames then some .notImplementedFn
  else none

/-- The external storage client interface consumed by the pool
(worker-pool.js lines 47 and 50): resolve the latest data-block hash for a
composite key at or before a block height, and fetch the bytes for a
key + hash pair.  Hashes are abstracted as `Nat`. -/
structure StorageClient where
  getLatestDataBlockHash : List Nat → Nat → Option Nat
  getData : List Nat → Nat → Option (List Nat)

/-- The pool's side of the storage bridge, worker-pool.js lines 43-57: on a
`storage_read` request it resolves `getLatestDataBlockHash(compKey, blockHeight)`;
if a hash is found it posts `getData(compKey, blockHash)` back to the worker,
otherwise it posts `null`.  The reply received by the worker is therefore the
composition of the two lookups. -/
def poolStorageReply (sc : StorageClient) (compKey : List Nat) (blockHeight : Nat) :
    Option (List Nat) :=
  match sc.getLatestDataBlockHash compKey blockHeight with
  | some blockHash => sc.getData compKey blockHash
  | none => none

/-- worker.js line 123:
`Buffer.concat([Buffer.from(contractId + ":"), storageKey])`
(the template literal renders the contract id string followed by a colon). -/
def compKeyOf (contractId : String) (storageKey : List Nat) : List Nat :=
  utf8Encode (contractId ++ ":") ++ storageKey

/-- worker.js lines 121-145: read the raw key bytes from guest memory, build
the composite key, perform the storage-bridge round trip (the synchronous
`postMessage` / blocking `receiveMessageOnPort` exchange, whose reply is
`poolStorageReply`), and either return `0` leaving the registers untouched
(reply `null`, which is the only falsy reply — a present byte buffer is a
truthy object even when empty) or store the reply in `registers[register_id]`
and return `1`. -/
def storage_read (sc : StorageClient) (ctx : Ctx) (st : St)
    (key_len key_ptr register_id : Nat) : St × Except JsError Nat :=
  match uint8ArrayView st.mem key_ptr key_len with
  | .error e => (st, .error e)
  | .ok storageKey =>
    match poolStorageReply sc (compKeyOf ctx.contractId storageKey) ctx.blockHeight with
    | none => (st, .ok 0)
    | some result => ({ st with regs := setReg st.regs register_id result }, .ok 1)

/-- A message posted from a worker to the pool, as destructured by the pool's
`message` handler (worker-pool.js line 25):
`{ result, logs, error, methodName, compKey }`.  `Option` models
presence/absence of the property; every present value of these fields is a
truthy JavaScript value (a byte buffer, an `Error` object, or the non-empty
string "storage_read"). -/
structure WorkerMsg where
  result : Option (List Nat)
  logs : Option (List String)
  error : Option JsError
  methodName : Option String
  compKey : Option (List Nat)
deriving DecidableEq

/-- worker.js lines 177-185: when `runWASM` fulfils, the worker posts
`{ result, logs }` (with `result = ctx.result`, possibly absent); when it
rejects, the worker posts `{ error }`. -/
def completionMessage (outcome : Except JsError St) : WorkerMsg :=
  match outcome with
  | .ok st => { result := st.result, logs := some st.logs, error := none,
                methodName := none, compKey := none }
  | .error e => { result := none, logs := none, error := some e,
                  methodName := none, compKey := none }

/-- How the pool's `message` handler settles the caller's pending promise. -/
inductive Settled where
  | resolved (result : List Nat) (logs : Option (List String))
  | rejected (err : JsError)
deriving DecidableEq

/-- The observable outcome of one run of the pool's `message` handler
(worker-pool.js lines 25-58): whether the worker was returned to the free
list (timeout cleared, task info nulled, `kWorkerFreedEvent` emitted),
whether and how the caller's promise was settled, and whether a storage
lookup was dispatched. -/
structure HandlerOutcome where
  freed : Bool
  settled : Option Settled
  storageDispatch : Option (List Nat)
deriving DecidableEq

/-- The pool's `message` handler, worker-pool.js lines 25-58:
`if (!methodName)` frees the worker; `if (error) return reject(error)`;
`if (result) return resolve({ result, logs })`; otherwise
`switch (methodName)` dispatches a `storage_read` lookup and nothing else. -/
def onWorkerMessage (m : WorkerMsg) : HandlerOutcome :=
  let freed := m.methodName.isNone
  match m.error with
  | some e => { freed := freed, settled := some (.rejected e), storageDispatch := none }
  | none =>
    match m.result with
    | some r =>
      { freed := freed, settled := some (.resolved r m.logs), storageDispatch := none }
    | none =>
      match m.methodName with
      | some "storage_read" =>
        { freed := freed, settled := none, storageDispatch := m.compKey }
      | _ => { freed := freed, settled := none, storageDispatch := none }

/-- worker-pool.js line 7: the per-call timeout in milliseconds, `1000`
unless overridden by the FAST_NEAR_CONTRACT_TIMEOUT_MS environment
variable. -/
def defaultContractTimeoutMs : Nat := 1000

/-- The bookkeeping stored against a busy worker, `worker[kTaskInfo]`
(worker-pool.js line 91): the caller's pending promise (identified here by
`taskId`), the call parameters the error handler reads back, and the
`didTimeout` flag set by the timeout callback. -/
structure TaskInfo where
  taskId : Nat
  blockHeight : Nat
  contractId : String
  methodName : String
  didTimeout : Bool
deriving DecidableEq

/-- The pool state of worker-pool.js.  Workers are identified by the `Nat`
id they were created with; `nextId` supplies fresh ids.  `spawnCount` counts
invocations of `addNewWorker` (worker constructions) and `terminated` records
the workers whose execution thread was forcibly destroyed by
`worker.terminate()`; both are observation fields, written exactly where the
source constructs or terminates a worker. -/
structure Pool where
  workers : List Nat
  freeWorkers : List Nat
  taskInfo : Nat → Option TaskInfo
  nextId : Nat
  spawnCount : Nat
  terminated : List Nat

/-- worker-pool.js lines 23-78 (`addNewWorker`): construct a fresh worker
with no attached task and push it onto `workers` and `freeWorkers`. -/
def addNewWorker (p : Pool) : Pool :=
  { p with
    workers := p.workers ++ [p.nextId],
    freeWorkers := p.freeWorkers ++ [p.nextId],
    taskInfo := fun i => if i = p.nextId then none else p.taskInfo i,
    nextId := p.nextId + 1,
    spawnCount := p.spawnCount + 1 }

/-- worker-pool.js lines 11-21 (constructor): starting from the empty pool,
invoke `addNewWorker` once per configured thread. -/
def mkPool : Nat → Pool
  | 0 => { workers := [], freeWorkers := [], taskInfo := fun _ => none,
           nextId := 0, spawnCount := 0, terminated := [] }
  | n + 1 => addNewWorker (mkPool n)

/-- worker-pool.js lines 80-99 (`runContract`, free-worker path): pop the
last free worker (`Array.prototype.pop`), attach the task info (the
`didTimeout` flag is not set at dispatch), and send the task.  When no worker
is free the submission is queued and the pool state is unchanged. -/
def runContract (p : Pool) (ti : TaskInfo) : Pool :=
  match p.freeWorkers.getLast? with
  | none => p
  | some w =>
    { p with
      freeWorkers := p.freeWorkers.dropLast,
      taskInfo := fun i => if i = w then some { ti with didTimeout := false } else p.taskInfo i }

/-- worker-pool.js lines 93-98 (the timeout callback): if the worker still
has an attached task, set its `didTimeout` flag and forcibly destroy the
worker's execution thread with `worker.terminate()`. -/
def onTimeout (p : Pool) (w : Nat) : Pool :=
  match p.taskInfo w with
  | some ti =>
    { p with
      taskInfo := fun i => if i = w then some { ti with didTimeout := true } else p.taskInfo i,
      terminated := p.terminated ++ [w] }
  | none => p

/-- worker-pool.js lines 102-106 (`close`): call `worker.terminate()` on
every worker in `workers`, unconditionally. -/
def close (p : Pool) : Pool :=
  { p with terminated := p.terminated ++ p.workers }

/-- worker-pool.js lines 62-74 (the `error` handler): if the worker has an
attached task, reject the caller's promise — with the
"<contractId>.<methodName> execution timed out" error when `didTimeout` is
set, with the original error otherwise; with no attached task, emit a
pool-level error instead (returned settlement `none`).  In both cases the
worker is spliced out of `workers` and `addNewWorker()` constructs a
replacement. -/
def onWorkerError (p : Pool) (w : Nat) (err : String) : Pool × Option (Nat × String) :=
  let p' := addNewWorker { p with workers := p.workers.erase w }
  match p.taskInfo w with
  | some ti =>
    (p', some (ti.taskId,
      if ti.didTimeout then ti.contractId ++ "." ++ ti.methodName ++ " execution timed out"
      else err))
  | none => (p', none)

/-- worker-pool.js lines 59-61 (the `exit` handler): a worker whose thread
stops (in particular one destroyed by `terminate()`) re-emits
`new Error("Worker stopped with exit code <code>")` on itself, which runs the
`error` handler. -/
def onWorkerExit (p : Pool) (w : Nat) (code : Nat) : Pool × Option (Nat × String) :=
  onWorkerError p w ("Worker stopped with exit code " ++ toString code)

/-! Helper lemmas. -/

/-- `jsSlice` with non-negative clamped indices agrees with drop-then-take:
the slice holds exactly the in-bounds part of the index range. -/
theorem jsSlice_eq (l : List Nat) (a n : Nat) :
    jsSlice l a (a + n) = (l.drop a).take n := by
  unfold jsSlice
  rcases le_or_lt a l.length with h | h
  · rw [min_eq_left h, List.drop_take]
    rw [List.take_eq_take]
    simp only [List.length_drop]
    omega
  · rw [min_eq_right (by omega : l.length ≤ a)]
    rw [List.drop_eq_nil_of_le (by simp)]
    rw [List.drop_eq_nil_of_le (by omega)]
    simp

/-- UTF-8 encoding distributes over list append. -/
theorem utf8EncodeList_append (l₁ l₂ : List Char) :
    utf8EncodeList (l₁ ++ l₂) = utf8EncodeList l₁ ++ utf8EncodeList l₂ := by
  induction l₁ with
  | nil => rfl
  | cons c cs ih => simp [utf8EncodeList, ih]

/-- Appending a colon to a string appends the single byte 58 to its UTF-8
encoding. -/
theorem utf8Encode_colon (s : String) :
    utf8Encode (s ++ ":") = utf8Encode s ++ [58] := by
  unfold utf8Encode
  rw [String.data_append, utf8EncodeList_append]
  rfl

/-- Every name bound to the `prohibitedInView` handler is classified
`prohibitedFn` by the import table. -/
theorem prohibited_import_kind :
    ∀ name ∈ prohibitedImportNames, importKind name = some ImportKind.prohibitedFn := by
  decide

/-! Concrete values used by the witnesses. -/

/-- A call state with empty memory and no register, log or result. -/
def stEmpty : St :=
  { regs := fun _ => none, mem := [], logs := [], result := none }

/-- A call state whose memory holds the two bytes "hi". -/
def stMem2 : St :=
  { regs := fun _ => none, mem := [104, 105], logs := [], result := none }

/-- A call state whose memory holds the single byte "k". -/
def stKey : St :=
  { regs := fun _ => none, mem := [107], logs := [], result := none }

/-- A call state with register 0 written to the two bytes [9, 9] and a
three-byte memory. -/
def stReg : St :=
  { regs := fun i => if i = 0 then some [9, 9] else none,
    mem := [0, 0, 0], logs := [], result := none }

/-- A concrete total decoder family standing in for Node's string decoders. -/
def constDecode : String → List Nat → String :=
  fun _ _ => "h"

/-- A storage client that resolves every key to hash 0 and value [42]. -/
def sc0 : StorageClient :=
  { getLatestDataBlockHash := fun _ _ => some 0, getData := fun _ _ => some [42] }

/-- A call context for contract "alice.test" at block height 5. -/
def ctx0 : Ctx :=
  { blockHeight := 5, contractId := "alice.test", methodArgs := [] }

/-- The task info of an example call. -/
def tiEx : TaskInfo :=
  { taskId := 7, blockHeight := 5, contractId := "alice.test",
    methodName := "getBalance", didTimeout := false }

/-- A one-worker pool whose single worker is busy with `tiEx`. -/
def poolBusy : Pool :=
  runContract (mkPool 1) tiEx

/-! Claim theorems. -/

/-- C1: the claim says `current_account_id` stores the contract identifier
into the register and never fails the call, and `input` stores the raw method
arguments.  The `input` half holds, but `current_account_id` reads
`ctx.contract_id`, a property the context object does not have (the field is
named `contractId`), so `Buffer.from(undefined)` throws a `TypeError` and the
invocation fails the call for every context and register id. -/
theorem c1_current_account_id_throws (ctx : Ctx) (st : St) (register_id : Nat) :
    current_account_id ctx st register_id =
      (st, .error (.typeError "The first argument must be of type string or an instance of Buffer, ArrayBuffer, or Array or an Array-like Object. Received undefined")) ∧
    input ctx st register_id =
      ({ st with regs := setReg st.regs register_id ctx.methodArgs }, .ok ()) :=
  ⟨rfl, rfl⟩

/-- C2: the claim says a call whose guest method returns without error and
without ever invoking `value_return` settles with an absent result.  In the
code the completion message then carries no `result` property, so the pool's
message handler frees the worker but neither resolves nor rejects the
caller's promise (`resolve` is guarded by `if (result)`): the deferred never
settles. -/
theorem c2_absent_result_never_settles (st : St) (h : st.result = none) :
    onWorkerMessage (completionMessage (.ok st)) =
      { freed := true, settled := none, storageDispatch := none } := by
  simp [completionMessage, onWorkerMessage, h]

/-- Witness for C2 at the empty call state. -/
theorem c2_absent_result_never_settles_witness :
    (stEmpty.result = none) ∧
    onWorkerMessage (completionMessage (.ok stEmpty)) =
      { freed := true, settled := none, storageDispatch := none } :=
  ⟨rfl, c2_absent_result_never_settles stEmpty rfl⟩

/-- C3: the claim says `log_utf8` and `log_utf16` both decode the given
in-bounds byte range and append the decoded string to the log, continuing
execution.  `log_utf8` does; but `log_utf16` passes the string "utf16" to
`Buffer.prototype.toString`, which is not a Node encoding name, so every
in-bounds `log_utf16` invocation throws `TypeError [ERR_UNKNOWN_ENCODING]`
and fails the call without appending anything. -/
theorem c3_log_utf16_unknown_encoding (decodeWith : String → List Nat → String)
    (st : St) (len ptr : Nat) (h : ptr + len ≤ st.mem.length) :
    log_utf16 decodeWith st len ptr =
      (st, .error (.unknownEncoding "Unknown encoding: utf16")) ∧
    log_utf8 decodeWith st len ptr =
      ({ st with logs := st.logs ++ [decodeWith "utf8" ((st.mem.drop ptr).take len)] },
       .ok ()) := by
  constructor
  · simp [log_utf16, uint8ArrayView, h, bufferToString, nodeBufferEncodings]
  · simp [log_utf8, uint8ArrayView, h, bufferToString, nodeBufferEncodings]

/-- Witness for C3: a two-byte in-bounds range. -/
theorem c3_log_utf16_unknown_encoding_witness :
    (0 + 2 ≤ stMem2.mem.length) ∧
    (log_utf16 constDecode stMem2 2 0 =
       (stMem2, .error (.unknownEncoding "Unknown encoding: utf16")) ∧
     log_utf8 constDecode stMem2 2 0 =
       ({ stMem2 with
          logs := stMem2.logs ++ [constDecode "utf8" ((stMem2.mem.drop 0).take 2)] },
        .ok ())) :=
  ⟨by decide, c3_log_utf16_unknown_encoding constDecode stMem2 2 0 (by decide)⟩

/-- C4 counterexample: on a one-worker pool, `close()` terminates the single
worker (id 0), but the resulting worker exit event runs the pool's error
handler, which constructs a replacement worker: the construction count rises
from 1 to 2 and the pool again owns a (new, live) worker — contradicting
"after close() the pool does not construct replacement workers". -/
theorem c4_close_counterexample :
    (close (mkPool 1)).terminated = [0] ∧
    (close (mkPool 1)).spawnCount = 1 ∧
    (onWorkerExit (close (mkPool 1)) 0 1).1.spawnCount = 2 ∧
    (onWorkerExit (close (mkPool 1)) 0 1).1.workers = [1] := by
  decide

/-- C4 amended: `close()` forcibly terminates every worker's execution
thread, but each terminated worker's exit event is handled by the pool's
error handler, which constructs a replacement worker — so the pool does
construct replacement workers after `close()`. -/
theorem c4_close_amended (p : Pool) (w code : Nat) (hw : w ∈ p.workers) :
    w ∈ (close p).terminated ∧
    (onWorkerExit (close p) w code).1.spawnCount = p.spawnCount + 1 := by
  constructor
  · simp [close, hw]
  · cases h : p.taskInfo w <;>
      simp [onWorkerExit, onWorkerError, addNewWorker, close, h]

/-- Witness for C4 amended on the one-worker pool. -/
theorem c4_close_amended_witness :
    (0 ∈ (mkPool 1).workers) ∧
    (0 ∈ (close (mkPool 1)).terminated ∧
     (onWorkerExit (close (mkPool 1)) 0 1).1.spawnCount = (mkPool 1).spawnCount + 1) :=
  ⟨by decide, c4_close_amended (mkPool 1) 0 1 (by decide)⟩

/-- C5: for an in-bounds key range, `storage_read` returns 0 and leaves the
register table (hence an unset target register) untouched when the storage
client reports no value at or before the call's block height for the
composite key, and returns 1 and stores exactly the fetched bytes in the
target register otherwise. -/
theorem c5_storage_read_result (sc : StorageClient) (ctx : Ctx) (st : St)
    (key_len key_ptr register_id : Nat) (h : key_ptr + key_len ≤ st.mem.length) :
    (poolStorageReply sc (compKeyOf ctx.contractId ((st.mem.drop key_ptr).take key_len))
        ctx.blockHeight = none →
      storage_read sc ctx st key_len key_ptr register_id = (st, .ok 0)) ∧
    (∀ v, poolStorageReply sc (compKeyOf ctx.contractId ((st.mem.drop key_ptr).take key_len))
        ctx.blockHeight = some v →
      storage_read sc ctx st key_len key_ptr register_id =
        ({ st with regs := setReg st.regs register_id v }, .ok 1)) := by
  constructor
  · intro hr
    simp [storage_read, uint8ArrayView, h, hr]
  · intro v hr
    simp [storage_read, uint8ArrayView, h, hr]

/-- Witness for C5: the storage client `sc0` resolves the key, so the read
returns 1 and register 3 receives the fetched bytes [42]. -/
theorem c5_storage_read_result_witness :
    ((0 + 1 ≤ stKey.mem.length) ∧
     poolStorageReply sc0 (compKeyOf ctx0.contractId ((stKey.mem.drop 0).take 1))
       ctx0.blockHeight = some [42]) ∧
    storage_read sc0 ctx0 stKey 1 0 3 =
      ({ stKey with regs := setReg stKey.regs 3 [42] }, .ok 1) :=
  ⟨⟨by decide, by decide⟩,
   (c5_storage_read_result sc0 ctx0 stKey 1 0 3 (by decide)).2 [42] (by decide)⟩

/-- C6 counterexample: with empty memory and register 0 unset,
`read_register(0, 1)` traps with a `RangeError` (the `Uint8Array.set` offset
check fails) — contradicting "copying zero bytes (without trapping) when the
register is unset". -/
theorem c6_read_register_counterexample :
    stEmpty.regs 0 = none ∧
    (read_register stEmpty 0 1).2 =
      .error (.rangeError "offset is out of bounds") :=
  ⟨rfl, rfl⟩

/-- C6 amended: `register_len` on an unwritten register returns the sentinel
2^64 - 1 and on a written register returns its exact byte length;
`read_register` copies exactly the register's bytes to `dest_ptr` when the
destination range is in bounds, and copies zero bytes without trapping on an
unset register provided `dest_ptr` does not exceed the memory size (an unset
read with `dest_ptr` beyond the memory still traps). -/
theorem c6_registers_amended (st : St) (register_id ptr : Nat) :
    (st.regs register_id = none →
      (register_len st register_id).2 = .ok MAX_U64 ∧ MAX_U64 = 2 ^ 64 - 1) ∧
    (∀ b, st.regs register_id = some b →
      (register_len st register_id).2 = .ok b.length) ∧
    (∀ b, st.regs register_id = some b → ptr + b.length ≤ st.mem.length →
      read_register st register_id ptr =
        ({ st with mem := st.mem.take ptr ++ b ++ st.mem.drop (ptr + b.length) },
         .ok ())) ∧
    (st.regs register_id = none → ptr ≤ st.mem.length →
      read_register st register_id ptr = (st, .ok ())) := by
  refine ⟨fun h => ⟨by simp [register_len, h], by decide⟩,
          fun b h => by simp [register_len, h],
          fun b h hb => ?_, fun h hp => ?_⟩
  · simp only [read_register, memSet, h, Option.getD_some]
    rw [if_pos (by omega)]
  · simp only [read_register, memSet, h, Option.getD_none, List.length_nil,
      Nat.zero_add, Nat.add_zero]
    rw [if_pos hp]
    simp [List.take_append_drop]

/-- Witness for C6 amended: copying the written register [9, 9] to offset 1
of a three-byte memory. -/
theorem c6_registers_amended_witness :
    ((stReg.regs 0 = some [9, 9]) ∧ 1 + 2 ≤ stReg.mem.length) ∧
    read_register stReg 0 1 =
      ({ stReg with mem := stReg.mem.take 1 ++ [9, 9] ++ stReg.mem.drop 3 }, .ok ()) :=
  ⟨⟨by decide, by decide⟩,
   (c6_registers_amended stReg 0 1).2.2.1 [9, 9] (by decide) (by decide)⟩

/-- C7: the composite key is the contract identifier's bytes, one ASCII
colon (byte 58), then the raw key bytes; in particular contract id
"alice.test" with raw key "k" yields exactly the bytes of "alice.test:k". -/
theorem c7_comp_key (contractId : String) (rawKey : List Nat) :
    compKeyOf contractId rawKey = utf8Encode contractId ++ 58 :: rawKey ∧
    compKeyOf "alice.test" (utf8Encode "k") = utf8Encode "alice.test:k" := by
  constructor
  · unfold compKeyOf
    rw [utf8Encode_colon]
    simp
  · decide

/-- C8: every prohibited-for-view import named by the claim is classified as
prohibited by the import table, and its handler fails the invocation with the
"method not available for view calls: <name>" error (distinct per name, since
the name is embedded in the message) while returning the call state — all
registers, memory, logs and the result buffer — unchanged. -/
theorem c8_prohibited_in_view (name : String) (st : St)
    (hname : name ∈ prohibitedImportNames) :
    importKind name = some ImportKind.prohibitedFn ∧
    prohibitedInViewCall name st =
      (st, .error (.error ("method not available for view calls: " ++ name))) :=
  ⟨prohibited_import_kind name hname, rfl⟩

/-- Witness for C8 at `storage_write`. -/
theorem c8_prohibited_in_view_witness :
    ("storage_write" ∈ prohibitedImportNames) ∧
    (importKind "storage_write" = some ImportKind.prohibitedFn ∧
     prohibitedInViewCall "storage_write" stEmpty =
       (stEmpty, .error (.error ("method not available for view calls: " ++ "storage_write")))) :=
  ⟨by decide, c8_prohibited_in_view "storage_write" stEmpty (by decide)⟩

/-- C9: when the timeout (default 1000 ms) fires while the worker still has
an attached task, the worker's thread is forcibly destroyed, the ensuing exit
event makes the pool reject the caller's deferred with the
"<contractId>.<methodName> execution timed out" error, and a replacement
worker restores the pool's worker count. -/
theorem c9_timeout_replaces_worker (p : Pool) (w : Nat) (ti : TaskInfo) (code : Nat)
    (hti : p.taskInfo w = some ti) (hw : w ∈ p.workers) :
    defaultContractTimeoutMs = 1000 ∧
    w ∈ (onTimeout p w).terminated ∧
    (onWorkerExit (onTimeout p w) w code).2 =
      some (ti.taskId, ti.contractId ++ "." ++ ti.methodName ++ " execution timed out") ∧
    (onWorkerExit (onTimeout p w) w code).1.workers.length = p.workers.length := by
  have hlen := List.length_erase_of_mem hw
  have hpos := List.length_pos.mpr (List.ne_nil_of_mem hw)
  refine ⟨rfl, ?_, ?_, ?_⟩
  · simp [onTimeout, hti]
  · simp [onTimeout, hti, onWorkerExit, onWorkerError]
  · simp [onTimeout, hti, onWorkerExit, onWorkerError, addNewWorker, hlen]
    omega

/-- Witness for C9 on the busy one-worker pool. -/
theorem c9_timeout_replaces_worker_witness :
    ((poolBusy.taskInfo 0 = some tiEx) ∧ 0 ∈ poolBusy.workers) ∧
    (defaultContractTimeoutMs = 1000 ∧
     0 ∈ (onTimeout poolBusy 0).terminated ∧
     (onWorkerExit (onTimeout poolBusy 0) 0 1).2 =
       some (tiEx.taskId, tiEx.contractId ++ "." ++ tiEx.methodName ++ " execution timed out") ∧
     (onWorkerExit (onTimeout poolBusy 0) 0 1).1.workers.length = poolBusy.workers.length) :=
  ⟨⟨by decide, by decide⟩, c9_timeout_replaces_worker poolBusy 0 tiEx 1 (by decide) (by decide)⟩

/-- C10: `value_return(len, ptr)` never fails: the stored result is exactly
the in-bounds portion of the requested range (the bytes of memory at indices
ptr, ..., ptr + len - 1 that exist), which is empty when ptr is at or past
the end of memory and holds at most len bytes. -/
theorem c10_value_return_clamps (st : St) (value_len value_ptr : Nat) :
    value_return st value_len value_ptr =
      ({ st with result := some ((st.mem.drop value_ptr).take value_len) }, .ok ()) ∧
    ((st.mem.drop value_ptr).take value_len).length ≤ value_len := by
  constructor
  · unfold value_return
    rw [jsSlice_eq]
  · exact List.length_take_le value_len _

end FastNear
